import Mathlib

/-!
Verification of the Fleet Telemetry & Analytics Core of NagaraTrackLite.

The definitions below are a shallow embedding of the JavaScript source:

* `RouteAnalytics`  — `frontend/src/components/RouteAnalytics.js`
  (`calculateAnalytics`, lines 58-103, and `fetchData`, lines 42-56);
* `SystemStatus`    — `frontend/src/components/SystemStatusPage.js`
  (`fetchHealthData`, `checkSystemAlerts`, `addAlert`, `overallStatus`);
* `LiveMap`         — the `LiveMapPage` component
  (`startVehicleUpdates`, `addNotification`, `handleRouteOptimization`
  and the route render loop).

JavaScript numbers are modelled as exact rationals (`ℚ`); `Math.round`
is `jsRound` (round half toward positive infinity, as in JS); rounding
to two decimals is `round2`.  String-interpolated alert messages are
modelled as tagged constructors carrying the raw numeric value, since
no claim depends on decimal formatting.
-/

namespace RouteAnalytics

/-- JavaScript `Math.round`: rounds half away toward positive infinity. -/
def jsRound (q : ℚ) : ℤ := ⌊q + 1/2⌋

/-- `Math.round(q * 100) / 100` — rounding to two decimal places. -/
def round2 (q : ℚ) : ℚ := (jsRound (q * 100) : ℚ) / 100

/-- A vehicle record as consumed by `calculateAnalytics`
(fields `route_id`, `status`, `speed`, `occupancy`, `delay`). -/
structure Vehicle where
  route_id : String
  status : String
  speed : ℚ
  occupancy : ℚ
  delay : ℚ
deriving DecidableEq, Repr

/-- A route record as consumed by `calculateAnalytics`
(fields `id`, `distance`, `estimated_time`). -/
structure RouteInfo where
  id : String
  distance : ℚ
  estimated_time : ℚ
deriving DecidableEq, Repr

/-- `vehicles.filter(v => v.route_id === route.id)` (line 62). -/
def routeVehicles (route : RouteInfo) (vehicles : List Vehicle) : List Vehicle :=
  vehicles.filter (fun v => v.route_id == route.id)

/-- `routeVehicles.filter(v => v.status === "active")` (line 63). -/
def activeVehicles (route : RouteInfo) (vehicles : List Vehicle) : List Vehicle :=
  (routeVehicles route vehicles).filter (fun v => v.status == "active")

/-- Mean speed of the active vehicles, `0` if none (lines 66-68). -/
def avgSpeed (vs : List Vehicle) : ℚ :=
  if 0 < vs.length then (vs.map (fun v => v.speed)).sum / vs.length else 0

/-- Mean occupancy of the active vehicles, `0` if none (lines 70-72). -/
def avgOccupancy (vs : List Vehicle) : ℚ :=
  if 0 < vs.length then (vs.map (fun v => v.occupancy)).sum / vs.length else 0

/-- Number of vehicles with `|delay| <= 2` (line 74). -/
def onTimeVehicles (vs : List Vehicle) : ℕ :=
  (vs.filter (fun v => |v.delay| ≤ 2)).length

/-- On-time percentage; `100` when the vehicle list is empty (lines 75-77). -/
def onTimePercentage (vs : List Vehicle) : ℚ :=
  if 0 < vs.length then ((onTimeVehicles vs : ℚ) / vs.length) * 100 else 100

/-- Sum of the positive parts of the delays (line 79). -/
def totalDelayMinutes (vs : List Vehicle) : ℚ :=
  (vs.map (fun v => max 0 v.delay)).sum

/-- `Math.min(avgSpeed / 40, 1) * 30` (line 82). -/
def speedScore (vs : List Vehicle) : ℚ := min (avgSpeed vs / 40) 1 * 30

/-- `(onTimePercentage / 100) * 40` (line 83). -/
def onTimeScore (vs : List Vehicle) : ℚ := onTimePercentage vs / 100 * 40

/-- `Math.min(avgOccupancy / 35, 1) * 30` (line 84). -/
def occupancyScore (vs : List Vehicle) : ℚ := min (avgOccupancy vs / 35) 1 * 30

/-- `speedScore + onTimeScore + occupancyScore` (line 85). -/
def efficiency (vs : List Vehicle) : ℚ :=
  speedScore vs + onTimeScore vs + occupancyScore vs

/-- The status bucket computed from the unrounded efficiency (line 96). -/
def statusOf (e : ℚ) : String :=
  if e > 80 then "excellent" else if e > 60 then "good"
  else if e > 40 then "fair" else "poor"

/-- The per-route analytics record built at lines 87-99. -/
structure AnalyticsEntry where
  activeVehicles : ℕ
  totalVehicles : ℕ
  avgSpeed : ℤ
  avgOccupancy : ℤ
  onTimePercentage : ℤ
  totalDelayMinutes : ℚ
  efficiency : ℤ
  status : String
  estimatedRevenue : ℤ
  fuelEfficiency : ℚ
deriving DecidableEq, Repr

/-- The body of `calculateAnalytics` for one route (lines 61-99). -/
def calculateAnalytics (route : RouteInfo) (vehicles : List Vehicle) :
    AnalyticsEntry :=
  { activeVehicles := (activeVehicles route vehicles).length
    totalVehicles := (routeVehicles route vehicles).length
    avgSpeed := jsRound (avgSpeed (activeVehicles route vehicles))
    avgOccupancy := jsRound (avgOccupancy (activeVehicles route vehicles))
    onTimePercentage := jsRound (onTimePercentage (activeVehicles route vehicles))
    totalDelayMinutes := totalDelayMinutes (activeVehicles route vehicles)
    efficiency := jsRound (efficiency (activeVehicles route vehicles))
    status := statusOf (efficiency (activeVehicles route vehicles))
    estimatedRevenue :=
      jsRound (avgOccupancy (activeVehicles route vehicles) *
        ((activeVehicles route vehicles).length : ℚ) * 25)
    fuelEfficiency :=
      round2 (route.distance /
        max (avgSpeed (activeVehicles route vehicles)) 1) }

/-- The example scenario route: distance 10 km, estimated time 20 min. -/
def exRoute : RouteInfo := { id := "R1", distance := 10, estimated_time := 20 }

/-- The example scenario vehicles: (speed 30, delay 0, occupancy 10) and
(speed 50, delay 6, occupancy 20), both active on route R1. -/
def exVehicles : List Vehicle :=
  [ { route_id := "R1", status := "active", speed := 30, occupancy := 10, delay := 0 },
    { route_id := "R1", status := "active", speed := 50, occupancy := 20, delay := 6 } ]

/-- A vehicle list whose only vehicle is inactive, so the set of active
vehicles of route R1 is empty. -/
def inactiveVehicles : List Vehicle :=
  [ { route_id := "R1", status := "inactive", speed := 25, occupancy := 5, delay := 1 } ]

/-- The property claimed by C1: the composite efficiency is the sum of
the three component scores, and lies between 0 and 100. -/
def C1Prop (route : RouteInfo) (vehicles : List Vehicle) : Prop :=
  efficiency (activeVehicles route vehicles) =
      min (avgSpeed (activeVehicles route vehicles) / 40) 1 * 30
    + onTimePercentage (activeVehicles route vehicles) / 100 * 40
    + min (avgOccupancy (activeVehicles route vehicles) / 35) 1 * 30
  ∧ 0 ≤ efficiency (activeVehicles route vehicles)
  ∧ efficiency (activeVehicles route vehicles) ≤ 100

end RouteAnalytics

namespace SystemStatus

/-- The `advanced_metrics` bag of a health response.  Fields are optional
because the fallback object built on a failed fetch carries only an
`error` entry (all numeric metrics absent); in JavaScript a comparison
against an absent field is false, which `optionGT` reproduces. -/
structure AdvancedMetrics where
  requests_per_minute : Option ℚ
  database_queries_per_minute : Option ℚ
  system_load : Option ℚ
  memory_usage : Option ℚ
  cache_hit_rate : Option ℚ
  network_latency : Option ℚ
  average_vehicle_speed : Option ℚ
  error : Option String
deriving DecidableEq, Repr

/-- A health snapshot as consumed by `SystemStatusPage`. -/
structure HealthData where
  status : String
  database_connected : Bool
  api_response_time : ℚ
  active_vehicles : ℚ
  total_routes : ℚ
  total_stops : ℚ
  system_uptime : String
  advanced_metrics : AdvancedMetrics
deriving DecidableEq, Repr

/-- The fallback object `setHealthData` stores when a health fetch fails
(`fetchHealthData`, lines 96-106). -/
def fallbackHealthData : HealthData :=
  { status := "unhealthy"
    database_connected := false
    api_response_time := 0
    active_vehicles := 0
    total_routes := 0
    total_stops := 0
    system_uptime := "0:00:00"
    advanced_metrics :=
      { requests_per_minute := none
        database_queries_per_minute := none
        system_load := none
        memory_usage := none
        cache_hit_rate := none
        network_latency := none
        average_vehicle_speed := none
        error := some "Failed to fetch data" } }

/-- The `alertThresholds` state (lines 32-36). -/
structure Thresholds where
  systemLoad : ℚ
  memoryUsage : ℚ
  responseTime : ℚ
deriving DecidableEq, Repr

/-- The initial threshold values: 0.8, 0.8 and 1000 ms. -/
def defaultThresholds : Thresholds :=
  { systemLoad := 4/5, memoryUsage := 4/5, responseTime := 1000 }

/-- Alert severity (the `type` field of an alert object). -/
inductive AlertType where
  | info
  | warning
  | error
  | success
deriving DecidableEq, Repr

/-- Alert message contents.  The JavaScript strings interpolate the raw
metric value; the constructors carry that value instead of modelling
decimal formatting. -/
inductive AlertMsg where
  | highSystemLoad (v : ℚ)
  | highMemoryUsage (v : ℚ)
  | slowApiResponse (v : ℚ)
  | databaseConnectionLost
  | failedHealthFetch
deriving DecidableEq, Repr

/-- An alert object.  Alerts pushed by `checkSystemAlerts` have no
timestamp; alerts from `addAlert` carry one. -/
structure Alert where
  type : AlertType
  message : AlertMsg
  timestamp : Option ℚ := none
deriving DecidableEq, Repr

/-- JavaScript `o > t` where `o` may be `undefined` (an absent metric
field): false when absent. -/
def optionGT (o : Option ℚ) (t : ℚ) : Bool :=
  match o with
  | some v => decide (t < v)
  | none => false

/-- `checkSystemAlerts` (lines 116-134): the list of threshold alerts
recomputed from one health snapshot, in push order. -/
def checkSystemAlerts (th : Thresholds) (h : HealthData) : List Alert :=
  (if optionGT h.advanced_metrics.system_load th.systemLoad then
      [{ type := AlertType.warning
         message := AlertMsg.highSystemLoad (h.advanced_metrics.system_load.getD 0) }]
    else [])
  ++ (if optionGT h.advanced_metrics.memory_usage th.memoryUsage then
      [{ type := AlertType.warning
         message := AlertMsg.highMemoryUsage (h.advanced_metrics.memory_usage.getD 0) }]
    else [])
  ++ (if th.responseTime < h.api_response_time then
      [{ type := AlertType.error
         message := AlertMsg.slowApiResponse h.api_response_time }]
    else [])
  ++ (if h.database_connected = false then
      [{ type := AlertType.error, message := AlertMsg.databaseConnectionLost }]
    else [])

/-- `addAlert` (lines 136-138): prepend the new alert and keep at most
the first four previous entries. -/
def addAlert (message : AlertMsg) (type : AlertType) (now : ℚ)
    (prev : List Alert) : List Alert :=
  { type := type, message := message, timestamp := some now } :: prev.take 4

/-- The `overallStatus` expression (line 303): unhealthy if any current
alert has error severity, warning if there is any alert at all, else the
health source's own reported status. -/
def overallStatus (systemAlerts : List Alert) (healthStatus : String) : String :=
  if 0 < systemAlerts.length then
    (if systemAlerts.any (fun a => a.type == AlertType.error) then "unhealthy"
     else "warning")
  else healthStatus

/-- One point of a time-series chart: `(time, value)`. -/
structure HistoryPoint where
  time : ℚ
  value : ℚ
deriving DecidableEq, Repr

/-- The per-series update `[...prev.slice(-19), point]` (lines 72-91):
keep the last 19 points and append the new one. -/
def appendHist (prev : List HistoryPoint) (p : HistoryPoint) : List HistoryPoint :=
  prev.drop (prev.length - 19) ++ [p]

/-- The `historicalData` state: one series per tracked metric. -/
structure HistoricalData where
  apiRequests : List HistoryPoint
  dbQueries : List HistoryPoint
  vehicleCount : List HistoryPoint
  systemLoad : List HistoryPoint
  responseTime : List HistoryPoint
deriving DecidableEq, Repr

/-- The `setHistoricalData` update on a successful health fetch
(lines 70-92). -/
def updateHistoricalData (prev : HistoricalData) (h : HealthData) (now : ℚ) :
    HistoricalData :=
  { apiRequests :=
      appendHist prev.apiRequests ⟨now, h.advanced_metrics.requests_per_minute.getD 0⟩
    dbQueries :=
      appendHist prev.dbQueries ⟨now, h.advanced_metrics.database_queries_per_minute.getD 0⟩
    vehicleCount := appendHist prev.vehicleCount ⟨now, h.active_vehicles⟩
    systemLoad :=
      appendHist prev.systemLoad ⟨now, h.advanced_metrics.system_load.getD 0⟩
    responseTime := appendHist prev.responseTime ⟨now, h.api_response_time⟩ }

/-- The latest-known snapshots held by the pages: routes and vehicles
(RouteAnalytics state, initially empty lists) and the health snapshot
(SystemStatusPage state, initially null). -/
structure SnapshotStore where
  routes : List RouteAnalytics.RouteInfo
  vehicles : List RouteAnalytics.Vehicle
  health : Option HealthData
deriving DecidableEq, Repr

/-- One cycle of `fetchData` in RouteAnalytics.js (lines 42-56): on
success both collections are replaced; on failure the state setters are
never reached, so the store is unchanged and the error is logged (the
returned flag). -/
def fetchDataStep (s : SnapshotStore)
    (result : Except String (List RouteAnalytics.RouteInfo × List RouteAnalytics.Vehicle)) :
    SnapshotStore × Bool :=
  match result with
  | Except.ok (rs, vs) => ({ s with routes := rs, vehicles := vs }, false)
  | Except.error _ => (s, true)

/-- One cycle of `fetchHealthData` (lines 57-114): on success the health
snapshot is replaced and the alert list is recomputed from it alone; on
failure the health snapshot is overwritten with `fallbackHealthData`, a
fetch-failure alert is prepended via `addAlert`, and the error is logged
(the returned flag). -/
def fetchHealthStep (th : Thresholds) (s : SnapshotStore) (alerts : List Alert)
    (now : ℚ) (result : Except String HealthData) :
    SnapshotStore × List Alert × Bool :=
  match result with
  | Except.ok h => ({ s with health := some h }, checkSystemAlerts th h, false)
  | Except.error _ =>
      ({ s with health := some fallbackHealthData },
        addAlert AlertMsg.failedHealthFetch AlertType.error now alerts, true)

/-- A concrete healthy snapshot used as a last-known-good value. -/
def goodHealth : HealthData :=
  { status := "healthy"
    database_connected := true
    api_response_time := 120
    active_vehicles := 6
    total_routes := 3
    total_stops := 8
    system_uptime := "1:00:00"
    advanced_metrics :=
      { requests_per_minute := some 50
        database_queries_per_minute := some 30
        system_load := some 0
        memory_usage := some 0
        cache_hit_rate := some 1
        network_latency := some 40
        average_vehicle_speed := some 35
        error := none } }

/-- The per-kind polling state: how many fetch cycles of that kind are
currently in flight, and (for the health kind) the auto-refresh flag. -/
structure PollState where
  inFlight : ℕ
  autoRefresh : Bool
deriving DecidableEq, Repr

/-- A tick of the SystemStatusPage interval (lines 46-55): the callback
starts `fetchHealthData` whenever `autoRefresh` is set — it never checks
whether a previous cycle is still in flight. -/
def healthTick (s : PollState) : PollState :=
  if s.autoRefresh then { s with inFlight := s.inFlight + 1 } else s

/-- A tick of the `startVehicleUpdates` interval in LiveMapPage
(lines 127-159): every tick unconditionally issues a vehicles fetch. -/
def vehicleTick (s : PollState) : PollState :=
  { s with inFlight := s.inFlight + 1 }

/-- Completion of one in-flight fetch cycle. -/
def completeCycle (s : PollState) : PollState :=
  { s with inFlight := s.inFlight - 1 }

/-- The initial `historicalData` state (lines 37-43): five empty series. -/
def emptyHist : HistoricalData :=
  { apiRequests := [], dbQueries := [], vehicleCount := [],
    systemLoad := [], responseTime := [] }

/-- Twenty-one distinct history points, for exercising eviction. -/
def hist21 : List HistoryPoint :=
  (List.range 21).map (fun (i : ℕ) => HistoryPoint.mk (i : ℚ) (i : ℚ))

/-- An alert log already at its capacity of five entries. -/
def fiveAlerts : List Alert :=
  [ { type := AlertType.info, message := AlertMsg.databaseConnectionLost },
    { type := AlertType.info, message := AlertMsg.databaseConnectionLost },
    { type := AlertType.info, message := AlertMsg.databaseConnectionLost },
    { type := AlertType.info, message := AlertMsg.databaseConnectionLost },
    { type := AlertType.warning, message := AlertMsg.failedHealthFetch } ]

/-- A store that has already completed successful fetches of every kind. -/
def exStore : SnapshotStore :=
  { routes := [RouteAnalytics.exRoute], vehicles := RouteAnalytics.exVehicles,
    health := some goodHealth }

/-- The spec example health snapshot: system load 0.85, memory usage 0.5,
api response time 300 ms, database connected. -/
def exHealth : HealthData :=
  { status := "healthy"
    database_connected := true
    api_response_time := 300
    active_vehicles := 6
    total_routes := 3
    total_stops := 8
    system_uptime := "2:00:00"
    advanced_metrics :=
      { requests_per_minute := some 45
        database_queries_per_minute := some 20
        system_load := some (17/20)
        memory_usage := some (1/2)
        cache_hit_rate := some (9/10)
        network_latency := some 30
        average_vehicle_speed := some 32
        error := none } }

/-- The property claimed by C7, for a health snapshot whose system-load
and memory-usage metrics are present with values `sl` and `mu`: each
threshold rule fires exactly when its condition holds at the default
thresholds, the derived overall status follows the
error/warning/reported-status precedence, and the alert list stored on a
successful fetch is recomputed from that snapshot alone. -/
def C7Prop (h : HealthData) (sl mu : ℚ) : Prop :=
  ((∃ a ∈ checkSystemAlerts defaultThresholds h,
      a.type = AlertType.warning ∧ a.message = AlertMsg.highSystemLoad sl) ↔ 4/5 < sl)
  ∧ ((∃ a ∈ checkSystemAlerts defaultThresholds h,
      a.type = AlertType.warning ∧ a.message = AlertMsg.highMemoryUsage mu) ↔ 4/5 < mu)
  ∧ ((∃ a ∈ checkSystemAlerts defaultThresholds h,
      a.type = AlertType.error
        ∧ a.message = AlertMsg.slowApiResponse h.api_response_time) ↔
      1000 < h.api_response_time)
  ∧ ((∃ a ∈ checkSystemAlerts defaultThresholds h,
      a.type = AlertType.error ∧ a.message = AlertMsg.databaseConnectionLost) ↔
      h.database_connected = false)
  ∧ ((∃ a ∈ checkSystemAlerts defaultThresholds h, a.type = AlertType.error) →
      overallStatus (checkSystemAlerts defaultThresholds h) h.status = "unhealthy")
  ∧ ((¬ ∃ a ∈ checkSystemAlerts defaultThresholds h, a.type = AlertType.error) →
      (∃ a ∈ checkSystemAlerts defaultThresholds h, a.type = AlertType.warning) →
      overallStatus (checkSystemAlerts defaultThresholds h) h.status = "warning")
  ∧ (checkSystemAlerts defaultThresholds h = [] →
      overallStatus (checkSystemAlerts defaultThresholds h) h.status = h.status)
  ∧ (∀ (s : SnapshotStore) (alerts : List Alert) (now : ℚ),
      (fetchHealthStep defaultThresholds s alerts now (Except.ok h)).2.1 =
        checkSystemAlerts defaultThresholds h)

end SystemStatus

namespace LiveMap

/-- The payload of `/routes/:id/optimize`. -/
structure OptimizationResult where
  optimized_coordinates : List (ℚ × ℚ)
  time_saved : ℚ
  traffic_score : ℚ
deriving DecidableEq, Repr

/-- A LiveMapPage toast notification object (lines 168-176). -/
structure Notification where
  id : ℚ
  message : String
  type : SystemStatus.AlertType
  timestamp : ℚ
deriving DecidableEq, Repr

/-- `addNotification` (lines 168-176): prepend the new entry and keep at
most the first four previous entries. -/
def addNotification (message : String) (type : SystemStatus.AlertType) (now : ℚ)
    (prev : List Notification) : List Notification :=
  { id := now, message := message, type := type, timestamp := now } :: prev.take 4

/-- The optimization state of LiveMapPage: the `optimizedRoutes` object
(an association of route id to completed result — `{...prev, [id]: r}`
updates are modelled by consing, which `List.lookup` resolves to the
newest binding) together with a count of optimizer requests issued. -/
structure OptState where
  optimizedRoutes : List (String × OptimizationResult)
  invocations : ℕ
deriving DecidableEq, Repr

/-- One render pass over a route (lines 464-470 combined with
`handleRouteOptimization`, lines 178-192): when optimization mode is on
and no completed result is cached for the route id, a new optimizer
request is issued.  Nothing records that a request is already in
flight. -/
def renderRouteStep (routeOptimization : Bool) (s : OptState) (routeId : String) :
    OptState :=
  if routeOptimization && (s.optimizedRoutes.lookup routeId).isNone then
    { s with invocations := s.invocations + 1 }
  else s

/-- Completion of an optimizer request (lines 183-186): store the
response under the route id. -/
def completeOptimization (s : OptState) (routeId : String)
    (res : OptimizationResult) : OptState :=
  { s with optimizedRoutes := (routeId, res) :: s.optimizedRoutes }

/-- A concrete optimization result. -/
def exResult : OptimizationResult :=
  { optimized_coordinates := [(19, 72), (19, 73)], time_saved := 6, traffic_score := 0 }

/-- A state holding a completed optimization result for route-1. -/
def cachedState : OptState :=
  { optimizedRoutes := [("route-1", exResult)], invocations := 1 }

end LiveMap

namespace RouteAnalytics

theorem mem_activeVehicles {route : RouteInfo} {vehicles : List Vehicle}
    {v : Vehicle} (h : v ∈ activeVehicles route vehicles) : v ∈ vehicles :=
  List.mem_of_mem_filter (List.mem_of_mem_filter h)

theorem avgSpeed_nonneg {vs : List Vehicle} (h : ∀ v ∈ vs, 0 ≤ v.speed) :
    0 ≤ avgSpeed vs := by
  unfold avgSpeed
  split
  · apply div_nonneg
    · apply List.sum_nonneg
      intro x hx
      obtain ⟨v, hv, rfl⟩ := List.mem_map.mp hx
      exact h v hv
    · positivity
  · exact le_refl 0

theorem avgOccupancy_nonneg {vs : List Vehicle} (h : ∀ v ∈ vs, 0 ≤ v.occupancy) :
    0 ≤ avgOccupancy vs := by
  unfold avgOccupancy
  split
  · apply div_nonneg
    · apply List.sum_nonneg
      intro x hx
      obtain ⟨v, hv, rfl⟩ := List.mem_map.mp hx
      exact h v hv
    · positivity
  · exact le_refl 0

theorem onTimePercentage_nonneg (vs : List Vehicle) : 0 ≤ onTimePercentage vs := by
  unfold onTimePercentage
  split
  · positivity
  · norm_num

theorem onTimePercentage_le_100 (vs : List Vehicle) : onTimePercentage vs ≤ 100 := by
  unfold onTimePercentage
  split
  · rename_i hlen
    have hc : (onTimeVehicles vs : ℚ) ≤ (vs.length : ℚ) := by
      exact_mod_cast List.length_filter_le _ vs
    have hpos : (0:ℚ) < (vs.length : ℚ) := by exact_mod_cast hlen
    have h1 : (onTimeVehicles vs : ℚ) / (vs.length : ℚ) ≤ 1 :=
      (div_le_one hpos).mpr hc
    nlinarith
  · exact le_refl (100:ℚ)

theorem speedScore_nonneg {vs : List Vehicle} (h : 0 ≤ avgSpeed vs) :
    0 ≤ speedScore vs := by
  have h0 : (0:ℚ) ≤ min (avgSpeed vs / 40) 1 := le_min (by positivity) (by norm_num)
  unfold speedScore
  nlinarith

theorem speedScore_le_30 (vs : List Vehicle) : speedScore vs ≤ 30 := by
  have h1 : min (avgSpeed vs / 40) 1 ≤ 1 := min_le_right _ _
  unfold speedScore
  nlinarith

theorem occupancyScore_nonneg {vs : List Vehicle} (h : 0 ≤ avgOccupancy vs) :
    0 ≤ occupancyScore vs := by
  have h0 : (0:ℚ) ≤ min (avgOccupancy vs / 35) 1 := le_min (by positivity) (by norm_num)
  unfold occupancyScore
  nlinarith

theorem occupancyScore_le_30 (vs : List Vehicle) : occupancyScore vs ≤ 30 := by
  have h1 : min (avgOccupancy vs / 35) 1 ≤ 1 := min_le_right _ _
  unfold occupancyScore
  nlinarith

theorem onTimeScore_bounds (vs : List Vehicle) :
    0 ≤ onTimeScore vs ∧ onTimeScore vs ≤ 40 := by
  have h0 := onTimePercentage_nonneg vs
  have h1 := onTimePercentage_le_100 vs
  unfold onTimeScore
  constructor <;> nlinarith

/-- C1: for every route and vehicle set, the derived efficiency equals
speedScore + onTimeScore + occupancyScore with speedScore =
min(avgSpeed/40, 1) * 30, onTimeScore = (onTimePct/100) * 40 and
occupancyScore = min(avgOccupancy/35, 1) * 30; and whenever every
vehicle has nonnegative speed and occupancy, 0 <= efficiency <= 100. -/
theorem efficiency_sum_and_range (route : RouteInfo) (vehicles : List Vehicle)
    (hso : ∀ v ∈ vehicles, 0 ≤ v.speed ∧ 0 ≤ v.occupancy) :
    C1Prop route vehicles := by
  have hs : 0 ≤ avgSpeed (activeVehicles route vehicles) :=
    avgSpeed_nonneg (fun v hv => (hso v (mem_activeVehicles hv)).1)
  have ho : 0 ≤ avgOccupancy (activeVehicles route vehicles) :=
    avgOccupancy_nonneg (fun v hv => (hso v (mem_activeVehicles hv)).2)
  refine ⟨rfl, ?_, ?_⟩
  · have := speedScore_nonneg hs
    have := occupancyScore_nonneg ho
    have := (onTimeScore_bounds (activeVehicles route vehicles)).1
    unfold efficiency
    linarith
  · have := speedScore_le_30 (activeVehicles route vehicles)
    have := occupancyScore_le_30 (activeVehicles route vehicles)
    have := (onTimeScore_bounds (activeVehicles route vehicles)).2
    unfold efficiency
    linarith

/-- Witness for C1 at the concrete example scenario. -/
theorem efficiency_sum_and_range_witness : C1Prop exRoute exVehicles :=
  efficiency_sum_and_range exRoute exVehicles (by decide)

/-- C2: on the example scenario (route distance 10 km, estimated time
20 min, active vehicles (speed 30, delay 0, occupancy 10) and (speed 50,
delay 6, occupancy 20)), the computation yields avgSpeed 40,
avgOccupancy 15, onTimePct 50, speedScore 30, onTimeScore 20,
occupancyScore 90/7 (about 12.86), efficiency 440/7 (about 62.86),
status "good", estimatedRevenue 750 and fuelEfficiency 0.25. -/
theorem example_scenario_values :
    avgSpeed (activeVehicles exRoute exVehicles) = 40
    ∧ avgOccupancy (activeVehicles exRoute exVehicles) = 15
    ∧ onTimePercentage (activeVehicles exRoute exVehicles) = 50
    ∧ speedScore (activeVehicles exRoute exVehicles) = 30
    ∧ onTimeScore (activeVehicles exRoute exVehicles) = 20
    ∧ occupancyScore (activeVehicles exRoute exVehicles) = 90/7
    ∧ efficiency (activeVehicles exRoute exVehicles) = 440/7
    ∧ (calculateAnalytics exRoute exVehicles).status = "good"
    ∧ (calculateAnalytics exRoute exVehicles).estimatedRevenue = 750
    ∧ (calculateAnalytics exRoute exVehicles).fuelEfficiency = 1/4 := by
  refine ⟨?_, ?_, ?_, ?_, ?_, ?_, ?_, ?_, ?_, ?_⟩ <;>
    norm_num [calculateAnalytics, statusOf, round2, jsRound, efficiency,
      speedScore, onTimeScore, occupancyScore, avgSpeed, avgOccupancy,
      onTimePercentage, onTimeVehicles, activeVehicles, routeVehicles,
      exRoute, exVehicles]

/-- C3: when a route has no active vehicles, the on-time percentage is
100 (vacuously on time), the average speed is 0, the fuel efficiency is
the route distance divided by max(avgSpeed, 1) rounded to two decimals,
and the divisor is at least 1 so no division by zero occurs. -/
theorem empty_active_defaults (route : RouteInfo) (vehicles : List Vehicle)
    (h : activeVehicles route vehicles = []) :
    onTimePercentage (activeVehicles route vehicles) = 100
    ∧ avgSpeed (activeVehicles route vehicles) = 0
    ∧ (calculateAnalytics route vehicles).fuelEfficiency =
        round2 (route.distance / max (avgSpeed (activeVehicles route vehicles)) 1)
    ∧ 1 ≤ max (avgSpeed (activeVehicles route vehicles)) 1 := by
  refine ⟨?_, ?_, rfl, le_max_right _ _⟩
  · rw [h]; simp [onTimePercentage]
  · rw [h]; simp [avgSpeed]

/-- Witness for C3: a route whose only vehicle is inactive. -/
theorem empty_active_defaults_witness :
    onTimePercentage (activeVehicles exRoute inactiveVehicles) = 100
    ∧ avgSpeed (activeVehicles exRoute inactiveVehicles) = 0
    ∧ (calculateAnalytics exRoute inactiveVehicles).fuelEfficiency =
        round2 (exRoute.distance /
          max (avgSpeed (activeVehicles exRoute inactiveVehicles)) 1)
    ∧ 1 ≤ max (avgSpeed (activeVehicles exRoute inactiveVehicles)) 1 :=
  empty_active_defaults exRoute inactiveVehicles (by decide)

/-- C10: a route with no active vehicles gets efficiency exactly 40
(only the vacuous on-time score contributes), and because the status
buckets compare strictly, its bucket is "poor". -/
theorem empty_active_poor (route : RouteInfo) (vehicles : List Vehicle)
    (h : activeVehicles route vehicles = []) :
    efficiency (activeVehicles route vehicles) = 40
    ∧ (calculateAnalytics route vehicles).status = "poor"
    ∧ (calculateAnalytics route vehicles).efficiency = 40 := by
  have he : efficiency (activeVehicles route vehicles) = 40 := by
    rw [h]
    norm_num [efficiency, speedScore, onTimeScore, occupancyScore,
      avgSpeed, avgOccupancy, onTimePercentage]
  refine ⟨he, ?_, ?_⟩
  · show statusOf (efficiency (activeVehicles route vehicles)) = "poor"
    rw [he]; norm_num [statusOf]
  · show jsRound (efficiency (activeVehicles route vehicles)) = 40
    rw [he]; norm_num [jsRound]

/-- Witness for C10: a route whose only vehicle is inactive. -/
theorem empty_active_poor_witness :
    efficiency (activeVehicles exRoute inactiveVehicles) = 40
    ∧ (calculateAnalytics exRoute inactiveVehicles).status = "poor"
    ∧ (calculateAnalytics exRoute inactiveVehicles).efficiency = 40 :=
  empty_active_poor exRoute inactiveVehicles (by decide)

end RouteAnalytics

namespace SystemStatus

theorem appendHist_length_le (prev : List HistoryPoint) (p : HistoryPoint) :
    (appendHist prev p).length ≤ 20 := by
  simp [appendHist]
  omega

theorem foldl_appendHist (xs : List HistoryPoint) :
    ∀ acc : List HistoryPoint, acc.length ≤ 20 →
      List.foldl appendHist acc xs = (acc ++ xs).drop (acc.length + xs.length - 20) := by
  induction xs with
  | nil =>
      intro acc h
      simp [Nat.sub_eq_zero_of_le h]
  | cons x xs ih =>
      intro acc h
      rw [List.foldl_cons, ih (appendHist acc x) (appendHist_length_le acc x)]
      by_cases hlen : acc.length ≤ 19
      · have hfit : appendHist acc x = acc ++ [x] := by
          simp [appendHist, Nat.sub_eq_zero_of_le hlen]
        rw [hfit]
        have hl : (acc ++ [x]).length = acc.length + 1 := by simp
        have hlist : acc ++ [x] ++ xs = acc ++ x :: xs := by simp
        rw [hlist, hl]
        congr 1
        simp
        omega
      · have h20 : acc.length = 20 := by omega
        obtain ⟨a, t, rfl⟩ : ∃ a t, acc = a :: t := by
          cases acc with
          | nil => simp at h20
          | cons a t => exact ⟨a, t, rfl⟩
        have ht : t.length = 19 := by simpa using h20
        have hdrop : appendHist (a :: t) x = t ++ [x] := by
          simp [appendHist, h20]
        rw [hdrop]
        have hl : (t ++ [x]).length = 20 := by simp [ht]
        rw [hl]
        have hlist : t ++ [x] ++ xs = t ++ x :: xs := by simp
        rw [hlist]
        have hidx1 : 20 + xs.length - 20 = xs.length := by omega
        have hidx2 : (a :: t).length + (x :: xs).length - 20 = xs.length + 1 := by
          simp [ht]
        rw [hidx1, hidx2]
        rw [List.cons_append, List.drop_succ_cons]

/-- C6: every history series update keeps the series at no more than 20
points, and 21 successive appends starting from the empty series leave
exactly the 20 most recent points in arrival order — the oldest point is
evicted first. -/
theorem history_ring_buffer :
    (∀ (prev : HistoricalData) (h : HealthData) (now : ℚ),
        (updateHistoricalData prev h now).apiRequests.length ≤ 20
        ∧ (updateHistoricalData prev h now).dbQueries.length ≤ 20
        ∧ (updateHistoricalData prev h now).vehicleCount.length ≤ 20
        ∧ (updateHistoricalData prev h now).systemLoad.length ≤ 20
        ∧ (updateHistoricalData prev h now).responseTime.length ≤ 20)
    ∧ (∀ xs : List HistoryPoint, xs.length = 21 →
        List.foldl appendHist [] xs = xs.drop 1) := by
  constructor
  · intro prev h now
    exact ⟨appendHist_length_le _ _, appendHist_length_le _ _,
      appendHist_length_le _ _, appendHist_length_le _ _,
      appendHist_length_le _ _⟩
  · intro xs hxs
    have := foldl_appendHist xs [] (by simp)
    simpa [hxs] using this

/-- Witness for C6: 21 concrete appends drop exactly the first point. -/
theorem history_ring_buffer_witness :
    (updateHistoricalData emptyHist goodHealth 0).apiRequests.length ≤ 20
    ∧ List.foldl appendHist [] hist21 = hist21.drop 1 :=
  ⟨(history_ring_buffer.1 emptyHist goodHealth 0).1,
    history_ring_buffer.2 hist21 (by simp [hist21])⟩

/-- C8: both bounded logs — `addAlert` in SystemStatusPage and
`addNotification` in LiveMapPage — never exceed five entries, place the
new entry first, and evict the oldest entry when already at capacity. -/
theorem alert_log_capacity :
    (∀ (m : AlertMsg) (t : AlertType) (now : ℚ) (prev : List Alert),
        (addAlert m t now prev).length ≤ 5
        ∧ (addAlert m t now prev).head? =
            some { type := t, message := m, timestamp := some now }
        ∧ (prev.length = 5 → addAlert m t now prev =
            { type := t, message := m, timestamp := some now } :: prev.dropLast))
    ∧ (∀ (m : String) (t : AlertType) (now : ℚ) (prev : List LiveMap.Notification),
        (LiveMap.addNotification m t now prev).length ≤ 5
        ∧ (LiveMap.addNotification m t now prev).head? =
            some { id := now, message := m, type := t, timestamp := now }
        ∧ (prev.length = 5 → LiveMap.addNotification m t now prev =
            { id := now, message := m, type := t, timestamp := now } :: prev.dropLast)) := by
  constructor
  · intro m t now prev
    refine ⟨?_, rfl, ?_⟩
    · simp [addAlert]
    · intro h5
      have : prev.take 4 = prev.dropLast := by
        rw [List.dropLast_eq_take, h5]
      simp [addAlert, this]
  · intro m t now prev
    refine ⟨?_, rfl, ?_⟩
    · simp [LiveMap.addNotification]
    · intro h5
      have : prev.take 4 = prev.dropLast := by
        rw [List.dropLast_eq_take, h5]
      simp [LiveMap.addNotification, this]

/-- Witness for C8: inserting into a full five-entry log keeps five
entries and drops the last (oldest) one. -/
theorem alert_log_capacity_witness :
    (addAlert AlertMsg.failedHealthFetch AlertType.error 7 fiveAlerts).length ≤ 5
    ∧ addAlert AlertMsg.failedHealthFetch AlertType.error 7 fiveAlerts =
        { type := AlertType.error, message := AlertMsg.failedHealthFetch,
          timestamp := some 7 } :: fiveAlerts.dropLast :=
  ⟨(alert_log_capacity.1 AlertMsg.failedHealthFetch AlertType.error 7 fiveAlerts).1,
    (alert_log_capacity.1 AlertMsg.failedHealthFetch AlertType.error 7 fiveAlerts).2.2 rfl⟩

/-- Counterexample to C4: starting from a store whose health snapshot is
the last-known-good `goodHealth`, a failed health fetch does not leave
that snapshot in place — it is overwritten with the fallback error
object. -/
theorem health_failure_overwrites_snapshot :
    (fetchHealthStep defaultThresholds exStore [] 0
        (Except.error "network error")).1.health ≠ some goodHealth := by
  intro heq
  have h1 : fallbackHealthData = goodHealth := by
    simpa [fetchHealthStep] using heq
  have h2 : fallbackHealthData.status = goodHealth.status := by rw [h1]
  simp [fallbackHealthData, goodHealth] at h2

/-- C4 as amended: a failed routes/vehicles fetch leaves every snapshot
unchanged and logs the error; a failed health fetch leaves the routes
and vehicles snapshots unchanged, logs the error and prepends an
error-severity alert, but replaces the health snapshot with the fixed
fallback error object rather than keeping the last-known-good value. -/
theorem fetch_failure_behavior (s : SnapshotStore) (e : String)
    (alerts : List Alert) (now : ℚ) :
    fetchDataStep s (Except.error e) = (s, true)
    ∧ (fetchHealthStep defaultThresholds s alerts now (Except.error e)).1.routes
        = s.routes
    ∧ (fetchHealthStep defaultThresholds s alerts now (Except.error e)).1.vehicles
        = s.vehicles
    ∧ (fetchHealthStep defaultThresholds s alerts now (Except.error e)).1.health
        = some fallbackHealthData
    ∧ (fetchHealthStep defaultThresholds s alerts now (Except.error e)).2.1
        = addAlert AlertMsg.failedHealthFetch AlertType.error now alerts
    ∧ (fetchHealthStep defaultThresholds s alerts now (Except.error e)).2.2 = true :=
  ⟨rfl, rfl, rfl, rfl, rfl, rfl⟩

/-- Counterexample to C9: a tick that fires while a cycle of the same
kind is still in flight is not skipped — after two ticks with no
completion, two cycles are in flight for both polling loops. -/
theorem overlapping_fetch_cycles :
    ¬ ((vehicleTick (vehicleTick { inFlight := 0, autoRefresh := true })).inFlight ≤ 1)
    ∧ ¬ ((healthTick (healthTick { inFlight := 0, autoRefresh := true })).inFlight ≤ 1) := by
  constructor <;> decide

/-- C9 as amended: every vehicle-poll tick starts a new fetch cycle
unconditionally, and every health-poll tick starts one whenever
auto-refresh is enabled (and is skipped only when auto-refresh is off) —
neither loop checks whether the previous cycle of its kind has
completed, so same-kind cycles can overlap. -/
theorem polling_tick_always_starts_fetch (s : PollState) :
    vehicleTick s = { s with inFlight := s.inFlight + 1 }
    ∧ (s.autoRefresh = true →
        healthTick s = { s with inFlight := s.inFlight + 1 })
    ∧ (s.autoRefresh = false → healthTick s = s) := by
  refine ⟨rfl, ?_, ?_⟩ <;> intro h <;> simp [healthTick, h]

/-- Witness for amended C9: with auto-refresh on and one cycle already in
flight, a tick starts a second cycle. -/
theorem polling_tick_always_starts_fetch_witness :
    healthTick { inFlight := 1, autoRefresh := true } =
      { inFlight := 2, autoRefresh := true } :=
  (polling_tick_always_starts_fetch { inFlight := 1, autoRefresh := true }).2.1 rfl

/-- C7: at the default thresholds, each threshold alert is produced
exactly when its condition holds on the current snapshot; the derived
overall status is unhealthy given any error alert, warning given a
warning alert and no error alert, and the source's own status when no
rule fires; and the stored alert set is recomputed from the current
snapshot alone. -/
theorem alert_thresholds_and_overall_status (h : HealthData) (sl mu : ℚ)
    (hsl : h.advanced_metrics.system_load = some sl)
    (hmu : h.advanced_metrics.memory_usage = some mu) :
    C7Prop h sl mu := by
  unfold C7Prop
  by_cases h1 : (4:ℚ)/5 < sl <;>
  by_cases h2 : (4:ℚ)/5 < mu <;>
  by_cases h3 : (1000:ℚ) < h.api_response_time <;>
  by_cases h4 : h.database_connected = false <;>
  simp [checkSystemAlerts, optionGT, defaultThresholds, overallStatus,
    fetchHealthStep, hsl, hmu, h1, h2, h3, h4]

/-- Witness for C7 on the spec example snapshot (system load 0.85,
memory usage 0.5, api response time 300 ms, database connected). -/
theorem alert_thresholds_and_overall_status_witness :
    C7Prop exHealth (17/20) (1/2) :=
  alert_thresholds_and_overall_status exHealth (17/20) (1/2) rfl rfl

end SystemStatus

namespace LiveMap

/-- Counterexample to C5: two render passes over the same route before
either optimization request completes issue two optimizer invocations,
not one — there is no in-flight marker to attach to. -/
theorem duplicate_optimization_requests :
    (renderRouteStep true
        (renderRouteStep true { optimizedRoutes := [], invocations := 0 } "route-1")
        "route-1").invocations = 2
    ∧ ¬ ((renderRouteStep true
        (renderRouteStep true { optimizedRoutes := [], invocations := 0 } "route-1")
        "route-1").invocations = 1) := by
  constructor <;> decide

/-- C5 as amended: the render loop deduplicates only against completed
results — once a result is cached for a route id (or optimization mode
is off) no request is issued, but while no result is cached every render
pass issues a fresh optimizer invocation, and a completed request stores
its result under the route id. -/
theorem optimization_request_dedup (s : OptState) (flag : Bool) (rid : String) :
    ((s.optimizedRoutes.lookup rid).isSome = true → renderRouteStep flag s rid = s)
    ∧ (flag = false → renderRouteStep flag s rid = s)
    ∧ (flag = true → s.optimizedRoutes.lookup rid = none →
        (renderRouteStep flag s rid).invocations = s.invocations + 1
        ∧ (renderRouteStep flag s rid).optimizedRoutes = s.optimizedRoutes)
    ∧ (∀ res : OptimizationResult,
        (completeOptimization s rid res).optimizedRoutes.lookup rid = some res) := by
  refine ⟨?_, ?_, ?_, ?_⟩
  · intro h
    obtain ⟨v, hv⟩ := Option.isSome_iff_exists.mp h
    simp [renderRouteStep, hv]
  · intro h
    simp [renderRouteStep, h]
  · intro hflag hnone
    simp [renderRouteStep, hflag, hnone]
  · intro res
    simp [completeOptimization, List.lookup]

/-- Witness for amended C5: with a completed result cached for route-1,
a render pass issues no new request. -/
theorem optimization_request_dedup_witness :
    renderRouteStep true cachedState "route-1" = cachedState :=
  (optimization_request_dedup cachedState true "route-1").1 rfl

end LiveMap
